import Mathlib

/-!
Verification of the Kova402 x402 payment SDK (client retry wrapper and
server-side payment handler).

The development shallowly embeds `src/client/index.ts`, `src/types.ts` and
`src/server/index.ts`:

* JSON values produced by `JSON.parse` are modelled by the inductive `Json`.
  Numbers are modelled as integers; no behaviour verified here depends on
  fractional or floating-point values.
* Header-value strings are abstracted by their `JSON.parse` status (`HVal`):
  every string either parses to a unique JSON value or fails to parse.
* Network effects (the `fetch` builtin, the remote facilitator) are passed in
  explicitly: a facilitator is a pair of functions from the POSTed body to the
  observed outcome, where `Except.error` covers both a thrown network failure
  and an unparseable response body.
* `Date.now()` and the random nonce bytes are explicit parameters.  The two
  `Date.now()` invocations inside `createPaymentPayload` are modelled as
  returning the same millisecond reading.
-/

set_option linter.unusedVariables false

namespace Kova402

/-- JSON values as produced by JSON.parse.  Numbers are modelled as integers.
Object field lists come from JSON.parse, whose results have pairwise distinct
keys. -/
inductive Json where
  | null
  | bool (b : Bool)
  | num (n : Int)
  | str (s : String)
  | arr (elems : List Json)
  | obj (fields : List (String × Json))
deriving Repr

/-- Property access `j.k` in a position where a thrown TypeError (null
receiver) is observationally identical to an absent field: used inside
try/catch blocks that map any throw to the same result as a missing field. -/
def Json.getField : Json → String → Option Json
  | .obj fs, k => (fs.find? (fun p => p.1 == k)).map (fun p => p.2)
  | _, _ => none

/-- JavaScript truthiness of a JSON value. -/
def Json.truthy : Json → Bool
  | .null => false
  | .bool b => b
  | .num n => n != 0
  | .str s => !s.isEmpty
  | .arr _ => true
  | .obj _ => true

/-- Truthiness of a possibly-undefined value (`none` models `undefined`). -/
def truthyOpt : Option Json → Bool
  | none => false
  | some j => j.truthy

/-- Template-literal rendering of a JSON value, as in a JS string
interpolation.  Array rendering joins element renderings with commas; the
corner where a null sits directly inside an array is not exercised by any
theorem below. -/
def jsDisplay : Json → String
  | .null => "null"
  | .bool b => cond b "true" "false"
  | .num n => toString n
  | .str s => s
  | .arr xs => String.intercalate "," (xs.attach.map (fun x => jsDisplay x.1))
  | .obj _ => "[object Object]"
decreasing_by
  simp_wf
  have h := List.sizeOf_lt_of_mem x.2
  omega

/-- Rendering of a possibly-undefined value in a template literal. -/
def jsDisplayOpt : Option Json → String
  | none => "undefined"
  | some j => jsDisplay j

/-- A header-value string, abstracted by its JSON.parse status: `js j` is a
string whose JSON.parse yields `j` (such a string is never empty), `raw s` is
a string `s` that JSON.parse rejects. -/
inductive HVal where
  | js (j : Json)
  | raw (s : String)
deriving Repr

/-- Whether the underlying header string is the empty string (JS-falsy). -/
def HVal.isEmptyStr : HVal → Bool
  | .js _ => false
  | .raw s => s.isEmpty

/-- JSON.parse on a header string: succeeds exactly on the `js` values. -/
def HVal.parseJson : HVal → Option Json
  | .js j => some j
  | .raw _ => none

/-- An Express-style header entry: a single string or a list of strings
(an absent key models `undefined`). -/
inductive RVal where
  | s (v : HVal)
  | list (vs : List HVal)
deriving Repr

/-- ASCII lower-casing of one character. -/
def lowerChar (c : Char) : Char :=
  if 65 <= c.toNat && c.toNat <= 90 then Char.ofNat (c.toNat + 32) else c

/-- ASCII lower-casing of a string, modelling the case-insensitive header
name comparison of the Fetch Headers class (header names are ASCII). -/
def lowerAscii (s : String) : String := String.mk (s.data.map lowerChar)

/-- Exact-key lookup in an Express-style header record. -/
def recGet (r : List (String × RVal)) (k : String) : Option RVal :=
  (r.find? (fun p => p.1 == k)).map (fun p => p.2)

/-- Case-insensitive lookup in a Fetch-API Headers object, modelled as a list
of name/value pairs with `get` comparing names case-insensitively. -/
def headersGet (hs : List (String × HVal)) (k : String) : Option HVal :=
  (hs.find? (fun p => lowerAscii p.1 == lowerAscii k)).map (fun p => p.2)

/-- JS truthiness of an Express header entry: `undefined` and the empty
string are falsy; any array (even empty) is truthy. -/
def optRValTruthy : Option RVal → Bool
  | none => false
  | some (.s v) => !v.isEmptyStr
  | some (.list _) => true

/-- The expression `headers[x-payment] || headers[X-Payment]`: the first
operand if truthy, otherwise the second lookup verbatim. -/
def xPaymentOf (r : List (String × RVal)) : Option RVal :=
  let a := recGet r "x-payment"
  if optRValTruthy a then a else recGet r "X-Payment"

/-- The typeof checks of extractPayment on the record branch: keep a string
value, or the first element of a non-empty array; otherwise no header. -/
def headerFromRVal : Option RVal → Option HVal
  | some (.s v) => some v
  | some (.list (v :: _)) => some v
  | _ => none

/-- The two admissible header shapes of extractPayment. -/
inductive HeadersInput where
  | headers (hs : List (String × HVal))
  | record (r : List (String × RVal))

/-- The header resolution step of extractPayment: Headers instances use a
case-insensitive get of X-Payment; plain records look up exactly the keys
x-payment and X-Payment. -/
def xPaymentHeaderOf : HeadersInput → Option HVal
  | .headers hs => headersGet hs "X-Payment"
  | .record r => headerFromRVal (xPaymentOf r)

/-- The shared tail of extractPayment: the falsy check on the header string,
JSON.parse inside try/catch, and the truthiness validation of the
paymentPayload and paymentRequirements fields.  A parsed value of JSON null
makes the field access throw inside the try, which the catch maps to null,
the same result the falsy-field check yields here. -/
def extractPaymentCore (paymentHeader : Option HVal) : Option Json :=
  match paymentHeader with
  | none => none
  | some v =>
    if v.isEmptyStr then none
    else
      match v.parseJson with
      | none => none
      | some parsed =>
        if !truthyOpt (parsed.getField "paymentPayload")
            || !truthyOpt (parsed.getField "paymentRequirements") then none
        else some parsed

/-- KovaPaymentHandler.extractPayment. -/
def extractPayment (inp : HeadersInput) : Option Json :=
  extractPaymentCore (xPaymentHeaderOf inp)

/-- Server-handler configuration (the facilitator URL only selects which
remote endpoint is called; the facilitator itself is passed explicitly). -/
structure HandlerCfg where
  network : String
  treasuryAddress : String
deriving Repr, DecidableEq

/-- The PaymentRequirements objects this handler constructs. -/
structure PaymentReqs where
  scheme : String
  network : String
  payTo : String
  maxAmountRequired : String
  resource : String
  asset : Option String
deriving Repr, DecidableEq

/-- KovaPaymentHandler.createPaymentRequirements: pure construction with
scheme fixed to exact; the asset spread keeps the asset only when truthy
(the description argument of the source is ignored by the construction). -/
def createPaymentRequirements (h : HandlerCfg) (amount : String) (resource : String)
    (asset : Option String) : PaymentReqs :=
  { scheme := "exact", network := h.network, payTo := h.treasuryAddress,
    maxAmountRequired := amount, resource := resource,
    asset := match asset with
      | some a => if a.isEmpty then none else some a
      | none => none }

/-- JSON serialization of a PaymentRequirements value, field order as in the
source object literal. -/
def reqsToJson (r : PaymentReqs) : Json :=
  Json.obj ([("scheme", Json.str r.scheme), ("network", Json.str r.network),
    ("payTo", Json.str r.payTo), ("maxAmountRequired", Json.str r.maxAmountRequired),
    ("resource", Json.str r.resource)]
    ++ (match r.asset with | some a => [("asset", Json.str a)] | none => []))

/-- The status/body pair returned by create402Response. -/
structure Http402 where
  status : Nat
  body : Json
deriving Repr

/-- KovaPaymentHandler.create402Response. -/
def create402Response (reqs : PaymentReqs) : Http402 :=
  ⟨402, Json.obj [("error", Json.str "Payment Required"), ("x402Version", Json.num 1),
                  ("paymentRequirements", reqsToJson reqs)]⟩

/-- The payment argument of verifyPayment and settlePayment, as typed in the
source: an object carrying a paymentPayload and the client-presented
paymentRequirements. -/
structure PaymentArg where
  paymentPayload : Json
  paymentRequirements : Json
deriving Repr

/-- The body POSTed to the facilitator's verify and settle endpoints. -/
structure FacBody where
  x402Version : Int
  paymentPayload : Json
  paymentRequirements : PaymentReqs
deriving Repr

/-- The remote facilitator, as observed through fetch plus response.json():
an `Except.error` outcome covers both a thrown network failure and a response
body that fails to parse. -/
structure Facilitator where
  verify : FacBody → Except Unit Json
  settle : FacBody → Except Unit Json

/-- The request body both verifyPayment and settlePayment construct: version
1, the payment's payload, and the separately supplied requirements (never the
requirements embedded in the envelope). -/
def mkFacBody (payment : PaymentArg) (reqs : PaymentReqs) : FacBody :=
  ⟨1, payment.paymentPayload, reqs⟩

/-- The strict check `result.isValid === true` on a parsed response. -/
def isValidTrue (j : Json) : Bool :=
  match j.getField "isValid" with
  | some (.bool true) => true
  | _ => false

/-- KovaPaymentHandler.verifyPayment: POST to the verify endpoint; any throw
is caught and mapped to false; otherwise true exactly when the parsed
response has isValid === true. -/
def verifyPayment (fac : Facilitator) (payment : PaymentArg) (reqs : PaymentReqs) : Bool :=
  match fac.verify (mkFacBody payment reqs) with
  | .error _ => false
  | .ok result => isValidTrue result

/-- KovaPaymentHandler.settlePayment: POST to the settle endpoint; the catch
logs and rethrows, so a failure propagates to the caller; a success returns
the parsed response. -/
def settlePayment (fac : Facilitator) (payment : PaymentArg) (reqs : PaymentReqs) :
    Except Unit Json :=
  match fac.settle (mkFacBody payment reqs) with
  | .error e => .error e
  | .ok result => .ok result

/-- The middleware configuration: amount, optional resource override, and
whether an onPaymentVerified callback was supplied. -/
structure MwConfig where
  amount : String
  resource : Option String
  hasCallback : Bool
deriving Repr, DecidableEq

/-- The request object the middleware receives. -/
structure MwReq where
  headers : List (String × RVal)
  originalUrl : Option String
  url : Option String
deriving Repr

/-- Observable events of one middleware invocation, in order.  `settleStart`
records the settlement call being launched as a detached background task
(its promise is consumed only by a logging catch); `settleAwait` would mark
the middleware blocking on that settlement result, and is never emitted. -/
inductive MEvent where
  | respond (status : Nat) (body : Json)
  | callbackCall (payment : PaymentArg)
  | settleStart (body : FacBody)
  | settleAwait
  | nextCall
deriving Repr

/-- First JS-truthy string of a chain of `||` operands. -/
def firstTruthyStr : List (Option String) → Option String
  | [] => none
  | some s :: rest => if s.isEmpty then firstTruthyStr rest else some s
  | none :: rest => firstTruthyStr rest

/-- The resource expression config.resource || req.originalUrl || req.url
|| slash. -/
def resolveResource (cfg : MwConfig) (req : MwReq) : String :=
  (firstTruthyStr [cfg.resource, req.originalUrl, req.url]).getD "/"

/-- The implicit cast of the extracted envelope to the payment argument type:
for every envelope extractPayment accepts, both fields are present (truthy),
so the null defaults never apply. -/
def toPaymentArg (p : Json) : PaymentArg :=
  ⟨(p.getField "paymentPayload").getD Json.null,
   (p.getField "paymentRequirements").getD Json.null⟩

/-- The requirements the middleware constructs for the current request. -/
def mwRequirements (h : HandlerCfg) (cfg : MwConfig) (req : MwReq) : PaymentReqs :=
  createPaymentRequirements h cfg.amount (resolveResource cfg req) none

/-- The generic invalid-payment 402 body of the middleware. -/
def invalidPaymentBody : Json := Json.obj [("error", Json.str "Invalid payment")]

/-- KovaPaymentHandler.middleware, as the ordered list of its observable
events: extract, then either a 402 challenge, or verification and either the
generic 402 rejection or (callback, background settlement launch, next). -/
def middleware (h : HandlerCfg) (fac : Facilitator) (cfg : MwConfig) (req : MwReq) :
    List MEvent :=
  let payment := extractPayment (.record req.headers)
  let requirements := mwRequirements h cfg req
  match payment with
  | none =>
    let r := create402Response requirements
    [.respond r.status r.body]
  | some p =>
    let pa := toPaymentArg p
    if verifyPayment fac pa requirements then
      (if cfg.hasCallback then [MEvent.callbackCall pa] else [])
        ++ [MEvent.settleStart (mkFacBody pa requirements), MEvent.nextCall]
    else
      [.respond 402 invalidPaymentBody]

/-- Lower-case hex digit of a value below 16. -/
def hexChar (n : Nat) : Char :=
  if n < 10 then Char.ofNat (48 + n) else Char.ofNat (87 + n)

/-- Two-digit lower-case hex rendering of a byte, as produced both by
Buffer.toString(hex) and by toString(16) padded to two digits. -/
def byteHex (b : Nat) : String :=
  String.mk [hexChar (b / 16), hexChar (b % 16)]

/-- Hex encoding of a byte list. -/
def hexOfBytes : List Nat → String
  | [] => ""
  | b :: bs => byteHex b ++ hexOfBytes bs

/-- generateNonce over an injected randomness source: both the Node and the
browser branch of the source hex-encode 32 random bytes behind an 0x
prefix. -/
def generateNonce (bytes : List Nat) : String :=
  "0x" ++ hexOfBytes bytes

/-- The 64-character zero filler of the placeholder signature components. -/
def zeros64 : String := String.mk (List.replicate 64 '0')

/-- A JS object property fed to JSON.stringify: an undefined value makes
stringify drop the key. -/
def objField (k : String) : Option Json → List (String × Json)
  | none => []
  | some v => [(k, v)]

/-- createPaymentPayload: the unsigned payment data plus placeholder
signature components, keyed by the received requirements object.  A null
requirements value makes the property accesses throw (Except.error); on any
other value an absent property reads as undefined and its key is dropped.
Both Date.now() readings are modelled by the single parameter `now`
(milliseconds). -/
def createPaymentPayload (walletPubKey : String) (requirements : Json)
    (network : String) (now : Nat) (nonceBytes : List Nat) : Except Unit Json :=
  match requirements with
  | .null => .error ()
  | req =>
    .ok (Json.obj
      ([("x402Version", Json.num 1)]
        ++ objField "scheme" (req.getField "scheme")
        ++ [("network", Json.str network),
            ("payload", Json.obj
              ([("from", Json.str walletPubKey)]
                ++ objField "to" (req.getField "payTo")
                ++ objField "value" (req.getField "maxAmountRequired")
                ++ [("validAfter", Json.str (toString (now / 1000))),
                    ("validBefore", Json.str (toString (now / 1000 + 3600))),
                    ("nonce", Json.str (generateNonce nonceBytes)),
                    ("v", Json.str "0x00"),
                    ("r", Json.str ("0x" ++ zeros64)),
                    ("s", Json.str ("0x" ++ zeros64))]))]))

/-- Property access `j.k` whose thrown TypeError (null receiver) is NOT
caught: `Except.error` models the rejection of the surrounding async
function. -/
def jsGet (j : Json) (k : String) : Except Unit (Option Json) :=
  match j with
  | .null => .error ()
  | .obj fs => .ok ((fs.find? (fun p => p.1 == k)).map (fun p => p.2))
  | _ => .ok none

/-- Property access on a possibly-undefined receiver; undefined receivers
throw just like null ones. -/
def jsGetOpt (o : Option Json) (k : String) : Except Unit (Option Json) :=
  match o with
  | none => .error ()
  | some j => jsGet j k

/-- Digit-string value, or none when any character is not a decimal digit
(or the string is empty). -/
def decDigitsVal (cs : List Char) : Option Nat :=
  match cs with
  | [] => none
  | _ =>
    if cs.all Char.isDigit then
      some (cs.foldl (fun a c => 10 * a + (c.toNat - 48)) 0)
    else none

/-- Leading/trailing-whitespace trim on a character list. -/
def isWhiteChar (c : Char) : Bool :=
  c == ' ' || c == '\t' || c == '\n' || c == '\r'

/-- Whitespace trim of a string's characters. -/
def trimChars (cs : List Char) : List Char :=
  ((cs.dropWhile isWhiteChar).reverse.dropWhile isWhiteChar).reverse

/-- The BigInt constructor on a string: whitespace is trimmed, the empty
remainder is 0n, an optional sign precedes decimal digits, anything else
throws (modelled as none).  The hexadecimal, octal and binary literal prefixes
BigInt also accepts are not modelled; no theorem below feeds such a string. -/
def strBigInt? (s : String) : Option Int :=
  match trimChars s.data with
  | [] => some 0
  | '+' :: rest => (decDigitsVal rest).map Int.ofNat
  | '-' :: rest => (decDigitsVal rest).map (fun n => -(n : Int))
  | cs => (decDigitsVal cs).map Int.ofNat

/-- The BigInt constructor on an arbitrary (possibly undefined) JSON value:
undefined, null and plain objects throw; booleans and integral numbers
convert; strings parse as decimal BigInt literals.  The array-to-primitive
coercion JS would perform is not modelled (no theorem below feeds an
array). -/
def jsBigInt? : Option Json → Option Int
  | none => none
  | some .null => none
  | some (.bool b) => some (cond b 1 0)
  | some (.num n) => some n
  | some (.str s) => strBigInt? s
  | some (.arr _) => none
  | some (.obj _) => none

/-- Client configuration: the wallet contributes only its base58 public key
to the behaviour modelled here; maxPaymentAmount is the optional bigint
ceiling. -/
structure ClientCfg where
  facilitatorUrl : String
  network : String
  walletPubKey : String
  maxPaymentAmount : Option Int
deriving Repr, DecidableEq

/-- An HTTP response as the client observes it: a status plus the outcome of
response.json() (error when the body is not JSON). -/
structure Resp where
  status : Nat
  body : Except Unit Json
deriving Repr

/-- A record of one network call: the headers the request carried. -/
structure CallRec where
  headers : List (String × HVal)
deriving Repr

/-- The network as the client's fetch sees it: the response to the initial
request, and the response to a retry as a function of the retry's headers. -/
structure Net where
  first : Resp
  retry : List (String × HVal) → Resp

/-- Errors with which the client's fetch can reject. -/
inductive ClientErr where
  | bodyNotJson
  | typeErr
  | bigIntErr
  | ceilingExceeded (amount : Option Json) (ceiling : Int)
deriving Repr

/-- The message of the error thrown by the ceiling guard, interpolating the
raw maxAmountRequired value and the configured bigint ceiling. -/
def ceilingMessage (amount : Option Json) (ceiling : Int) : String :=
  "Payment amount " ++ jsDisplayOpt amount ++ " exceeds maximum " ++ toString ceiling

/-- Headers.set on the header list built from the original init headers:
case-insensitive replacement.  (A real Headers object replaces in place; only
lookups are observed here, for which removal plus append is equivalent.) -/
def headersSet (hs : List (String × HVal)) (name : String) (v : HVal) :
    List (String × HVal) :=
  hs.filter (fun p => !(lowerAscii p.1 == lowerAscii name)) ++ [(name, v)]

/-- The envelope JSON the client stringifies into the payment header. -/
def envelopeJson (payload : Json) (reqs : Json) : Json :=
  Json.obj [("x402Version", Json.num 1), ("paymentPayload", payload),
            ("paymentRequirements", reqs)]

/-- The guard `maxPaymentAmount && BigInt(paymentRequirements.maxAmountRequired)
> maxPaymentAmount`: an undefined or zero (falsy) ceiling skips the whole
check; otherwise the amount is read off the (possibly undefined)
paymentRequirements value, converted by BigInt, and compared. -/
def ceilingCheck (maxPay : Option Int) (prOpt : Option Json) : Except ClientErr Unit :=
  match maxPay with
  | none => .ok ()
  | some m =>
    if m = 0 then .ok ()
    else
      match jsGetOpt prOpt "maxAmountRequired" with
      | .error _ => .error .typeErr
      | .ok amtOpt =>
        match jsBigInt? amtOpt with
        | none => .error .bigIntErr
        | some amt => if m < amt then .error (.ceilingExceeded amtOpt m) else .ok ()

/-- createKovaClient(...).fetch: the initial request; on a non-402 status the
response is returned unchanged; on 402 the body is parsed, the ceiling guard
runs, a payment payload is built, and the single retry carries the
JSON-encoded envelope in the X-Payment header.  The second component lists
every network call made, in order. -/
def clientFetch (cfg : ClientCfg) (now : Nat) (nonceBytes : List Nat) (net : Net)
    (initHeaders : List (String × HVal)) : Except ClientErr Resp × List CallRec :=
  let r0 := net.first
  let c0 : CallRec := ⟨initHeaders⟩
  if r0.status = 402 then
    match r0.body with
    | .error _ => (.error .bodyNotJson, [c0])
    | .ok bodyJson =>
      match jsGet bodyJson "paymentRequirements" with
      | .error _ => (.error .typeErr, [c0])
      | .ok prOpt =>
        match ceilingCheck cfg.maxPaymentAmount prOpt with
        | .error e => (.error e, [c0])
        | .ok _ =>
          match prOpt with
          | none => (.error .typeErr, [c0])
          | some pr =>
            match createPaymentPayload cfg.walletPubKey pr cfg.network now nonceBytes with
            | .error _ => (.error .typeErr, [c0])
            | .ok payload =>
              let h1 := headersSet initHeaders "X-Payment"
                (HVal.js (envelopeJson payload pr))
              (.ok (net.retry h1), [c0, ⟨h1⟩])
  else (.ok r0, [c0])

/-! ## Concrete fixtures used by the closed witness theorems -/

/-- A requirements object demanding the given amount, paid to T. -/
def exReqs (amountStr : String) : Json :=
  Json.obj [("payTo", Json.str "T"), ("maxAmountRequired", Json.str amountStr)]

/-- A 402 body carrying those requirements. -/
def exBody (amountStr : String) : Json :=
  Json.obj [("paymentRequirements", exReqs amountStr)]

/-- A network answering 402 with that body first and 200 on any retry. -/
def exNet (amountStr : String) : Net :=
  ⟨⟨402, Except.ok (exBody amountStr)⟩, fun _ => ⟨200, Except.ok Json.null⟩⟩

/-- The payload the client builds from exReqs with wallet W on network
solana-devnet at time 0 with an empty nonce byte source. -/
def exPayload (amountStr : String) : Json :=
  Json.obj [("x402Version", Json.num 1), ("network", Json.str "solana-devnet"),
    ("payload", Json.obj [("from", Json.str "W"), ("to", Json.str "T"),
      ("value", Json.str amountStr), ("validAfter", Json.str "0"),
      ("validBefore", Json.str "3600"), ("nonce", Json.str "0x"),
      ("v", Json.str "0x00"), ("r", Json.str ("0x" ++ zeros64)),
      ("s", Json.str ("0x" ++ zeros64))])]

/-! ## Helper lemmas -/

/-- On a defined, non-null receiver the throwing property access agrees with
the non-throwing one. -/
theorem jsGet_eq_getField (j : Json) (k : String) (h : j ≠ Json.null) :
    jsGet j k = .ok (j.getField k) := by
  cases j <;> simp_all [jsGet, Json.getField]

/-- Setting a header makes its case-insensitive lookup return the new
value. -/
theorem headersGet_headersSet (hs : List (String × HVal)) (n : String) (v : HVal) :
    headersGet (headersSet hs n v) n = some v := by
  unfold headersGet headersSet
  rw [List.find?_append]
  have h1 : (hs.filter (fun p => !(lowerAscii p.1 == lowerAscii n))).find?
      (fun p => lowerAscii p.1 == lowerAscii n) = none := by
    rw [List.find?_eq_none]
    intro x hx
    have hpx := List.of_mem_filter hx
    simpa using hpx
  rw [h1]
  simp [List.find?]

/-- Each byte renders as exactly two hex characters. -/
theorem byteHex_length (b : Nat) : (byteHex b).length = 2 := rfl

/-- The hex encoding is twice as long as the byte list. -/
theorem hexOfBytes_length (bs : List Nat) : (hexOfBytes bs).length = 2 * bs.length := by
  induction bs with
  | nil => rfl
  | cons b rest ih =>
    simp only [hexOfBytes, String.length_append, byteHex_length, ih, List.length_cons]
    omega

/-- A non-null requirements value always yields a payload. -/
theorem createPaymentPayload_isOk (walletPubKey : String) (req : Json)
    (network : String) (now : Nat) (nonceBytes : List Nat) (h : req ≠ Json.null) :
    ∃ p, createPaymentPayload walletPubKey req network now nonceBytes = .ok p := by
  cases req <;> simp_all [createPaymentPayload]

/-- The ceiling guard passes when no ceiling is configured, when the
configured ceiling is zero, or when the amount parses and does not exceed
the ceiling. -/
theorem ceilingCheck_ok (maxPay : Option Int) (pr : Json) (hnn : pr ≠ Json.null)
    (h : maxPay = none ∨ ∃ m amt, maxPay = some m ∧
      jsBigInt? (pr.getField "maxAmountRequired") = some amt ∧ amt ≤ m) :
    ceilingCheck maxPay (some pr) = .ok () := by
  rcases h with h | ⟨m, amt, hm, hamt, hle⟩
  · rw [h]; rfl
  · rw [hm]
    unfold ceilingCheck
    by_cases hm0 : m = 0
    · simp [hm0]
    · simp only [hm0, if_neg hm0, jsGetOpt, jsGet_eq_getField pr _ hnn, hamt]
      have : ¬ m < amt := not_lt.mpr hle
      simp [this]

/-! ## Claim theorems -/

/-- C2: verifyPayment returns true exactly when the facilitator call
succeeds with a parsed body whose isValid field is the boolean true; a
thrown or unparseable facilitator response (the error outcome) yields
false.  The return type Bool itself witnesses that no error escapes. -/
theorem verifyPayment_fail_closed (fac : Facilitator) (payment : PaymentArg)
    (reqs : PaymentReqs) :
    (verifyPayment fac payment reqs = true ↔
      ∃ j, fac.verify (mkFacBody payment reqs) = .ok j ∧
        j.getField "isValid" = some (Json.bool true)) ∧
    (∀ e, fac.verify (mkFacBody payment reqs) = .error e →
      verifyPayment fac payment reqs = false) := by
  constructor
  · constructor
    · intro h
      unfold verifyPayment at h
      split at h
      · exact absurd h (by simp)
      · rename_i j hv
        unfold isValidTrue at h
        split at h
        · rename_i heq
          exact ⟨j, hv, heq⟩
        · exact absurd h (by simp)
    · rintro ⟨j, hv, hg⟩
      unfold verifyPayment isValidTrue
      rw [hv]
      simp [hg]
  · intro e he
    unfold verifyPayment
    rw [he]

/-- Witness for verifyPayment_fail_closed at concrete inputs: a facilitator
answering isValid true yields true; a throwing facilitator yields false. -/
theorem verifyPayment_fail_closed_witness :
    verifyPayment ⟨fun _ => .ok (Json.obj [("isValid", Json.bool true)]), fun _ => .error ()⟩
      ⟨Json.obj [], Json.obj []⟩ ⟨"exact", "solana-devnet", "T", "100", "/api", none⟩
      = true ∧
    verifyPayment ⟨fun _ => .error (), fun _ => .error ()⟩
      ⟨Json.obj [], Json.obj []⟩ ⟨"exact", "solana-devnet", "T", "100", "/api", none⟩
      = false := by
  constructor
  · exact (verifyPayment_fail_closed _ _ _).1.2 ⟨_, rfl, rfl⟩
  · exact (verifyPayment_fail_closed _ _ _).2 () rfl

/-- C8: settlePayment propagates a facilitator failure to its caller and
returns the parsed result on success, asymmetric with verifyPayment which
maps the same failure to false. -/
theorem settlePayment_propagates (fac : Facilitator) (payment : PaymentArg)
    (reqs : PaymentReqs) :
    (∀ e, fac.settle (mkFacBody payment reqs) = .error e →
      settlePayment fac payment reqs = .error e) ∧
    (∀ j, fac.settle (mkFacBody payment reqs) = .ok j →
      settlePayment fac payment reqs = .ok j) ∧
    (∀ e, fac.verify (mkFacBody payment reqs) = .error e →
      verifyPayment fac payment reqs = false) := by
  refine ⟨?_, ?_, ?_⟩
  · intro e he
    unfold settlePayment
    rw [he]
  · intro j hj
    unfold settlePayment
    rw [hj]
  · intro e he
    unfold verifyPayment
    rw [he]

/-- Witness for settlePayment_propagates: a throwing settle call propagates
while the same failure on verify maps to false; a succeeding settle call
returns the parsed result. -/
theorem settlePayment_propagates_witness :
    settlePayment ⟨fun _ => .error (), fun _ => .error ()⟩ ⟨Json.obj [], Json.obj []⟩
      ⟨"exact", "solana-devnet", "T", "100", "/api", none⟩ = .error () ∧
    settlePayment ⟨fun _ => .error (), fun _ => .ok (Json.obj [("isValid", Json.bool true)])⟩
      ⟨Json.obj [], Json.obj []⟩ ⟨"exact", "solana-devnet", "T", "100", "/api", none⟩
      = .ok (Json.obj [("isValid", Json.bool true)]) ∧
    verifyPayment ⟨fun _ => .error (), fun _ => .error ()⟩ ⟨Json.obj [], Json.obj []⟩
      ⟨"exact", "solana-devnet", "T", "100", "/api", none⟩ = false := by
  refine ⟨?_, ?_, ?_⟩
  · exact (settlePayment_propagates _ _ _).1 () rfl
  · exact (settlePayment_propagates _ _ _).2.1 _ rfl
  · exact (settlePayment_propagates _ _ _).2.2 () rfl

/-- C10: the bodies POSTed to the verify and settle endpoints, and hence the
results, depend only on the envelope's paymentPayload and the separately
supplied requirements: the requirements embedded in the envelope are never
forwarded. -/
theorem facilitator_body_independence (fac : Facilitator) (pp r1 r2 : Json)
    (reqs : PaymentReqs) :
    mkFacBody ⟨pp, r1⟩ reqs = mkFacBody ⟨pp, r2⟩ reqs ∧
    verifyPayment fac ⟨pp, r1⟩ reqs = verifyPayment fac ⟨pp, r2⟩ reqs ∧
    settlePayment fac ⟨pp, r1⟩ reqs = settlePayment fac ⟨pp, r2⟩ reqs :=
  ⟨rfl, rfl, rfl⟩

/-- C3 counterexample: the record branch recognises only the exact keys
x-payment and X-Payment, so the all-caps casing X-PAYMENT of the very same
valid envelope is rejected while the lower-case casing is accepted; header
matching is therefore not case-insensitive for record inputs. -/
theorem extractPayment_casing_counterexample :
    extractPayment (.record [("X-PAYMENT",
        RVal.s (HVal.js (Json.obj [("paymentPayload", Json.obj [("a", Json.num 1)]),
          ("paymentRequirements", Json.obj [("b", Json.num 2)])])))]) = none ∧
    extractPayment (.record [("x-payment",
        RVal.s (HVal.js (Json.obj [("paymentPayload", Json.obj [("a", Json.num 1)]),
          ("paymentRequirements", Json.obj [("b", Json.num 2)])])))])
      = some (Json.obj [("paymentPayload", Json.obj [("a", Json.num 1)]),
          ("paymentRequirements", Json.obj [("b", Json.num 2)])]) := by
  constructor <;> rfl

/-- C3 (amended): extractPayment returns null for a missing header, a
non-JSON header value, or a parsed value whose paymentPayload or
paymentRequirements field is absent or JS-falsy, and returns the parsed
envelope when both fields are present and truthy; the header name is matched
case-insensitively for Headers inputs, while record inputs recognise exactly
the keys x-payment and X-Payment. -/
theorem extractPayment_amended (inp : HeadersInput) :
    (xPaymentHeaderOf inp = none → extractPayment inp = none) ∧
    (∀ s, xPaymentHeaderOf inp = some (HVal.raw s) → extractPayment inp = none) ∧
    (∀ j, xPaymentHeaderOf inp = some (HVal.js j) →
      truthyOpt (j.getField "paymentPayload") = false → extractPayment inp = none) ∧
    (∀ j, xPaymentHeaderOf inp = some (HVal.js j) →
      truthyOpt (j.getField "paymentRequirements") = false → extractPayment inp = none) ∧
    (∀ j, xPaymentHeaderOf inp = some (HVal.js j) →
      truthyOpt (j.getField "paymentPayload") = true →
      truthyOpt (j.getField "paymentRequirements") = true →
      extractPayment inp = some j) ∧
    (∀ n v rest, inp = .headers ((n, v) :: rest) → lowerAscii n = "x-payment" →
      xPaymentHeaderOf inp = some v) ∧
    (∀ r, inp = .record r → recGet r "x-payment" = none → recGet r "X-Payment" = none →
      extractPayment inp = none) := by
  refine ⟨?_, ?_, ?_, ?_, ?_, ?_, ?_⟩
  · intro h
    unfold extractPayment
    rw [h]
    rfl
  · intro s h
    unfold extractPayment
    rw [h]
    unfold extractPaymentCore
    by_cases hs : s.isEmpty <;> simp [HVal.isEmptyStr, HVal.parseJson, hs]
  · intro j h hp
    unfold extractPayment
    rw [h]
    simp [extractPaymentCore, HVal.isEmptyStr, HVal.parseJson, hp]
  · intro j h hr
    unfold extractPayment
    rw [h]
    simp [extractPaymentCore, HVal.isEmptyStr, HVal.parseJson, hr]
  · intro j h hp hr
    unfold extractPayment
    rw [h]
    simp [extractPaymentCore, HVal.isEmptyStr, HVal.parseJson, hp, hr]
  · intro n v rest hinp hn
    subst hinp
    show headersGet ((n, v) :: rest) "X-Payment" = some v
    unfold headersGet
    rw [List.find?_cons_of_pos]
    · rfl
    · show (lowerAscii n == lowerAscii "X-Payment") = true
      rw [hn]
      rfl
  · intro r hinp h1 h2
    subst hinp
    show extractPaymentCore (headerFromRVal (xPaymentOf r)) = none
    simp [xPaymentOf, h1, h2, optRValTruthy, headerFromRVal, extractPaymentCore]

/-- Witness for extractPayment_amended: a lower-case record header holding a
valid envelope is extracted. -/
theorem extractPayment_amended_witness :
    extractPayment (.record [("x-payment",
        RVal.s (HVal.js (Json.obj [("paymentPayload", Json.num 7),
          ("paymentRequirements", Json.str "q")])))])
      = some (Json.obj [("paymentPayload", Json.num 7),
          ("paymentRequirements", Json.str "q")]) :=
  (extractPayment_amended _).2.2.2.2.1 _ rfl rfl rfl

/-- C5: for a non-402 initial response the client's fetch makes exactly one
network call and returns that response unchanged — no ceiling check, no
payload construction, no header added, no retry. -/
theorem clientFetch_passthrough (cfg : ClientCfg) (now : Nat) (nonceBytes : List Nat)
    (net : Net) (initHeaders : List (String × HVal)) (h : net.first.status ≠ 402) :
    clientFetch cfg now nonceBytes net initHeaders = (.ok net.first, [⟨initHeaders⟩]) := by
  unfold clientFetch
  simp [h]

/-- Witness for clientFetch_passthrough at a concrete 200 response. -/
theorem clientFetch_passthrough_witness :
    clientFetch ⟨"", "solana-devnet", "W", none⟩ 0 []
      ⟨⟨200, .ok Json.null⟩, fun _ => ⟨500, .error ()⟩⟩ []
      = (.ok ⟨200, .ok Json.null⟩, [⟨[]⟩]) :=
  clientFetch_passthrough _ _ _ _ _ (by decide)

/-- C4 counterexample: a configured ceiling equal to zero is falsy, so the
guard is skipped entirely: a 402 demanding 5 (which exceeds the ceiling 0)
does not make the call fail, and a retry network call is performed — against
the claim that every amount exceeding the configured ceiling fails with no
retry. -/
theorem clientFetch_ceiling_zero_counterexample :
    (clientFetch ⟨"", "solana-devnet", "W", some 0⟩ 0 [] (exNet "5") []).1
      = .ok ⟨200, .ok Json.null⟩ ∧
    (clientFetch ⟨"", "solana-devnet", "W", some 0⟩ 0 [] (exNet "5") []).2.length = 2 ∧
    jsBigInt? (some (Json.str "5")) = some 5 ∧ (0 : Int) < 5 := by
  refine ⟨rfl, rfl, rfl, by decide⟩

/-- C4 (amended): whenever the configured ceiling is a nonzero bigint and
the 402 body's maxAmountRequired converts to a bigint exceeding it, the
client's fetch rejects immediately with the ceiling error carrying both the
raw amount and the ceiling, after exactly one network call (no retry); the
error message interpolates both values.  A configured ceiling of zero is
falsy and disables the check (see the counterexample and C9). -/
theorem clientFetch_ceiling_enforced (cfg : ClientCfg) (now : Nat)
    (nonceBytes : List Nat) (net : Net) (initHeaders : List (String × HVal))
    (bodyJson : Json) (prOpt amtOpt : Option Json) (m amt : Int)
    (h402 : net.first.status = 402)
    (hbody : net.first.body = .ok bodyJson)
    (hpr : jsGet bodyJson "paymentRequirements" = .ok prOpt)
    (hmax : cfg.maxPaymentAmount = some m) (hm0 : m ≠ 0)
    (hamt : jsGetOpt prOpt "maxAmountRequired" = .ok amtOpt)
    (hparse : jsBigInt? amtOpt = some amt)
    (hgt : m < amt) :
    clientFetch cfg now nonceBytes net initHeaders
      = (.error (.ceilingExceeded amtOpt m), [⟨initHeaders⟩]) ∧
    ceilingMessage amtOpt m
      = "Payment amount " ++ jsDisplayOpt amtOpt ++ " exceeds maximum " ++ toString m := by
  refine ⟨?_, rfl⟩
  have hceil : ceilingCheck cfg.maxPaymentAmount prOpt
      = .error (.ceilingExceeded amtOpt m) := by
    unfold ceilingCheck
    rw [hmax]
    simp [hm0, hamt, hparse, hgt]
  unfold clientFetch
  simp [h402, hbody, hpr, hceil]

/-- Witness for clientFetch_ceiling_enforced at the spec's example: amount
1000000 against ceiling 500000 rejects with both amounts in the message and
no retry call. -/
theorem clientFetch_ceiling_enforced_witness :
    clientFetch ⟨"", "solana-devnet", "W", some 500000⟩ 0 [] (exNet "1000000") []
      = (.error (.ceilingExceeded (some (Json.str "1000000")) 500000), [⟨[]⟩]) ∧
    ceilingMessage (some (Json.str "1000000")) 500000
      = "Payment amount 1000000 exceeds maximum 500000" := by
  constructor
  · exact (clientFetch_ceiling_enforced ⟨"", "solana-devnet", "W", some 500000⟩ 0 []
      (exNet "1000000") [] (exBody "1000000") (some (exReqs "1000000"))
      (some (Json.str "1000000")) 500000 1000000 rfl rfl rfl rfl (by decide) rfl rfl
      (by decide)).1
  · simp only [ceilingMessage, jsDisplayOpt, jsDisplay]
    rfl

/-- C9: a configured ceiling of zero makes the guard short-circuit on
truthiness, so the client behaves identically to a client with no ceiling
configured at all; in particular a 402 demanding a positive amount is not
rejected and the payment retry proceeds. -/
theorem clientFetch_zero_ceiling_skipped (cfg : ClientCfg) (now : Nat)
    (nonceBytes : List Nat) (net : Net) (initHeaders : List (String × HVal)) :
    clientFetch { cfg with maxPaymentAmount := some 0 } now nonceBytes net initHeaders
      = clientFetch { cfg with maxPaymentAmount := none } now nonceBytes net initHeaders ∧
    (∀ bodyJson pr payload,
      net.first.status = 402 → net.first.body = .ok bodyJson →
      jsGet bodyJson "paymentRequirements" = .ok (some pr) →
      createPaymentPayload cfg.walletPubKey pr cfg.network now nonceBytes = .ok payload →
      clientFetch { cfg with maxPaymentAmount := some 0 } now nonceBytes net initHeaders
        = (.ok (net.retry (headersSet initHeaders "X-Payment"
              (HVal.js (envelopeJson payload pr)))),
           [⟨initHeaders⟩, ⟨headersSet initHeaders "X-Payment"
              (HVal.js (envelopeJson payload pr))⟩])) := by
  have hz : ∀ o, ceilingCheck (some 0) o = .ok () := by
    intro o; unfold ceilingCheck; simp
  constructor
  · have hn : ∀ o, ceilingCheck (none : Option Int) o = .ok () := fun o => rfl
    unfold clientFetch
    simp only [hz, hn]
  · intro bodyJson pr payload h402 hbody hpr hpay
    unfold clientFetch
    simp [h402, hbody, hpr, hz, hpay]

/-- Witness for clientFetch_zero_ceiling_skipped: with a zero ceiling a 402
demanding 5 still triggers the retry carrying the payment envelope. -/
theorem clientFetch_zero_ceiling_skipped_witness :
    clientFetch ⟨"", "solana-devnet", "W", some 0⟩ 0 [] (exNet "5") []
      = (.ok ⟨200, .ok Json.null⟩,
         [⟨[]⟩, ⟨[("X-Payment", HVal.js (envelopeJson (exPayload "5") (exReqs "5")))]⟩]) :=
  (clientFetch_zero_ceiling_skipped ⟨"", "solana-devnet", "W", none⟩ 0 [] (exNet "5") []).2
    (exBody "5") (exReqs "5") (exPayload "5") rfl rfl rfl rfl

/-- C6: on a 402 whose amount passes the ceiling guard (no ceiling
configured, or the amount converts and is at or below the ceiling), fetch
performs exactly one retry whose headers carry the X-Payment header; the
header's JSON value is the envelope with version 1, the built payload, and
exactly the requirements received in the 402 body; the retried response is
returned as-is with no further retry (the result places no constraint on
the retried response's status). -/
theorem clientFetch_retry_once (cfg : ClientCfg) (now : Nat) (nonceBytes : List Nat)
    (net : Net) (initHeaders : List (String × HVal)) (bodyJson pr payload : Json)
    (h402 : net.first.status = 402)
    (hbody : net.first.body = .ok bodyJson)
    (hpr : jsGet bodyJson "paymentRequirements" = .ok (some pr))
    (hnn : pr ≠ Json.null)
    (hceil : cfg.maxPaymentAmount = none ∨ ∃ m amt, cfg.maxPaymentAmount = some m ∧
      jsBigInt? (pr.getField "maxAmountRequired") = some amt ∧ amt ≤ m)
    (hpay : createPaymentPayload cfg.walletPubKey pr cfg.network now nonceBytes
      = .ok payload) :
    clientFetch cfg now nonceBytes net initHeaders
      = (.ok (net.retry (headersSet initHeaders "X-Payment"
            (HVal.js (envelopeJson payload pr)))),
         [⟨initHeaders⟩, ⟨headersSet initHeaders "X-Payment"
            (HVal.js (envelopeJson payload pr))⟩]) ∧
    headersGet (headersSet initHeaders "X-Payment" (HVal.js (envelopeJson payload pr)))
        "X-Payment" = some (HVal.js (envelopeJson payload pr)) ∧
    (envelopeJson payload pr).getField "x402Version" = some (Json.num 1) ∧
    (envelopeJson payload pr).getField "paymentPayload" = some payload ∧
    (envelopeJson payload pr).getField "paymentRequirements" = some pr := by
  refine ⟨?_, headersGet_headersSet _ _ _, rfl, rfl, rfl⟩
  have hc : ceilingCheck cfg.maxPaymentAmount (some pr) = .ok () :=
    ceilingCheck_ok _ _ hnn hceil
  unfold clientFetch
  simp [h402, hbody, hpr, hc, hpay]

/-- Witness for clientFetch_retry_once: amount 400000 under ceiling 500000
triggers the one retry carrying the decodable envelope. -/
theorem clientFetch_retry_once_witness :
    clientFetch ⟨"", "solana-devnet", "W", some 500000⟩ 0 [] (exNet "400000") []
      = (.ok ⟨200, .ok Json.null⟩,
         [⟨[]⟩, ⟨[("X-Payment",
            HVal.js (envelopeJson (exPayload "400000") (exReqs "400000")))]⟩]) ∧
    (envelopeJson (exPayload "400000") (exReqs "400000")).getField "paymentRequirements"
      = some (exReqs "400000") := by
  have h := clientFetch_retry_once ⟨"", "solana-devnet", "W", some 500000⟩ 0 []
    (exNet "400000") [] (exBody "400000") (exReqs "400000") (exPayload "400000")
    rfl rfl rfl (by intro hx; exact Json.noConfusion hx)
    (Or.inr ⟨500000, 400000, rfl, rfl, by decide⟩) rfl
  exact ⟨h.1, h.2.2.2.2⟩

/-- C7: the payload the client constructs carries sender = wallet address,
recipient = requirements.payTo, value = requirements.maxAmountRequired, a
validity window of exactly 3600 seconds starting at the current time, a
0x-prefixed hex encoding of the 32 random bytes as nonce (66 characters),
and zero-filled placeholder signature components. -/
theorem createPaymentPayload_fields (walletPubKey : String) (req : Json)
    (network : String) (now : Nat) (nonceBytes : List Nat) (pt amt : Json)
    (hnn : req ≠ Json.null)
    (hpt : req.getField "payTo" = some pt)
    (hamt : req.getField "maxAmountRequired" = some amt)
    (hlen : nonceBytes.length = 32) :
    createPaymentPayload walletPubKey req network now nonceBytes
      = .ok (Json.obj ([("x402Version", Json.num 1)]
          ++ objField "scheme" (req.getField "scheme")
          ++ [("network", Json.str network), ("payload", Json.obj
            [("from", Json.str walletPubKey), ("to", pt), ("value", amt),
             ("validAfter", Json.str (toString (now / 1000))),
             ("validBefore", Json.str (toString (now / 1000 + 3600))),
             ("nonce", Json.str (generateNonce nonceBytes)),
             ("v", Json.str "0x00"), ("r", Json.str ("0x" ++ zeros64)),
             ("s", Json.str ("0x" ++ zeros64))])])) ∧
    now / 1000 + 3600 - now / 1000 = 3600 ∧
    generateNonce nonceBytes = "0x" ++ hexOfBytes nonceBytes ∧
    (hexOfBytes nonceBytes).length = 64 ∧
    (generateNonce nonceBytes).length = 66 := by
  refine ⟨?_, by omega, rfl, ?_, ?_⟩
  · cases req <;> simp_all [createPaymentPayload, objField]
  · rw [hexOfBytes_length, hlen]
  · show ("0x" ++ hexOfBytes nonceBytes).length = 66
    rw [String.length_append, hexOfBytes_length, hlen]
    decide

/-- Witness for createPaymentPayload_fields with 32 zero bytes at time
7265000 ms: window 7265 to 10865, nonce of 66 characters. -/
theorem createPaymentPayload_fields_witness :
    createPaymentPayload "W" (Json.obj [("payTo", Json.str "T"),
        ("maxAmountRequired", Json.str "100")]) "solana-devnet" 7265000
        (List.replicate 32 0)
      = .ok (Json.obj [("x402Version", Json.num 1), ("network", Json.str "solana-devnet"),
          ("payload", Json.obj
            [("from", Json.str "W"), ("to", Json.str "T"), ("value", Json.str "100"),
             ("validAfter", Json.str "7265"), ("validBefore", Json.str "10865"),
             ("nonce", Json.str ("0x" ++ zeros64)),
             ("v", Json.str "0x00"), ("r", Json.str ("0x" ++ zeros64)),
             ("s", Json.str ("0x" ++ zeros64))])]) ∧
    (generateNonce (List.replicate 32 0)).length = 66 :=
  ⟨(createPaymentPayload_fields "W" (Json.obj [("payTo", Json.str "T"),
      ("maxAmountRequired", Json.str "100")]) "solana-devnet" 7265000
      (List.replicate 32 0) (Json.str "T") (Json.str "100")
      (by intro hx; exact Json.noConfusion hx) rfl rfl (by simp)).1,
   (createPaymentPayload_fields "W" (Json.obj [("payTo", Json.str "T"),
      ("maxAmountRequired", Json.str "100")]) "solana-devnet" 7265000
      (List.replicate 32 0) (Json.str "T") (Json.str "100")
      (by intro hx; exact Json.noConfusion hx) rfl rfl (by simp)).2.2.2.2⟩

/-- C1: the middleware emits the challenge 402 and never calls next when no
payment is extracted; emits the distinct generic invalid-payment 402 and
never calls next when verification fails; and on successful verification
invokes the callback (when supplied), launches exactly one background
settlement attempt, and calls next exactly once, never blocking on the
settlement result (no settleAwait event ever appears). -/
theorem middleware_gate (h : HandlerCfg) (fac : Facilitator) (cfg : MwConfig)
    (req : MwReq) :
    (extractPayment (.record req.headers) = none →
      middleware h fac cfg req
        = [.respond 402 (create402Response (mwRequirements h cfg req)).body] ∧
      MEvent.nextCall ∉ middleware h fac cfg req) ∧
    (∀ p, extractPayment (.record req.headers) = some p →
      verifyPayment fac (toPaymentArg p) (mwRequirements h cfg req) = false →
      middleware h fac cfg req = [.respond 402 invalidPaymentBody] ∧
      invalidPaymentBody ≠ (create402Response (mwRequirements h cfg req)).body ∧
      MEvent.nextCall ∉ middleware h fac cfg req) ∧
    (∀ p, extractPayment (.record req.headers) = some p →
      verifyPayment fac (toPaymentArg p) (mwRequirements h cfg req) = true →
      middleware h fac cfg req
        = (if cfg.hasCallback then [MEvent.callbackCall (toPaymentArg p)] else [])
            ++ [MEvent.settleStart (mkFacBody (toPaymentArg p) (mwRequirements h cfg req)),
                MEvent.nextCall] ∧
      (middleware h fac cfg req).countP
        (fun e => match e with | MEvent.nextCall => true | _ => false) = 1 ∧
      (middleware h fac cfg req).countP
        (fun e => match e with | MEvent.settleStart _ => true | _ => false) = 1 ∧
      (cfg.hasCallback = true →
        MEvent.callbackCall (toPaymentArg p) ∈ middleware h fac cfg req) ∧
      MEvent.settleAwait ∉ middleware h fac cfg req) := by
  refine ⟨?_, ?_, ?_⟩
  · intro he
    have ht : middleware h fac cfg req
        = [.respond 402 (create402Response (mwRequirements h cfg req)).body] := by
      unfold middleware
      simp [he, create402Response]
    refine ⟨ht, ?_⟩
    rw [ht]
    simp
  · intro p he hv
    have ht : middleware h fac cfg req = [.respond 402 invalidPaymentBody] := by
      unfold middleware
      simp [he, hv]
    refine ⟨ht, ?_, ?_⟩
    · simp [invalidPaymentBody, create402Response, reqsToJson]
    · rw [ht]
      simp
  · intro p he hv
    have ht : middleware h fac cfg req
        = (if cfg.hasCallback then [MEvent.callbackCall (toPaymentArg p)] else [])
            ++ [MEvent.settleStart (mkFacBody (toPaymentArg p) (mwRequirements h cfg req)),
                MEvent.nextCall] := by
      unfold middleware
      simp [he, hv]
    refine ⟨ht, ?_, ?_, ?_, ?_⟩ <;> rw [ht] <;> cases hcb : cfg.hasCallback <;>
      simp [hcb, List.countP_cons, List.countP_nil]

/-- Witness for middleware_gate on the valid-payment path: a verified
payment produces exactly the settlement launch followed by next. -/
theorem middleware_gate_witness :
    middleware ⟨"solana-devnet", "TREASURY"⟩
      ⟨fun _ => .ok (Json.obj [("isValid", Json.bool true)]), fun _ => .error ()⟩
      ⟨"1000", none, false⟩
      ⟨[("x-payment", RVal.s (HVal.js (Json.obj
          [("paymentPayload", Json.obj [("k", Json.num 1)]),
           ("paymentRequirements", Json.obj [])])))], none, none⟩
      = [MEvent.settleStart ⟨1, Json.obj [("k", Json.num 1)],
           ⟨"exact", "solana-devnet", "TREASURY", "1000", "/", none⟩⟩,
         MEvent.nextCall] :=
  ((middleware_gate ⟨"solana-devnet", "TREASURY"⟩
      ⟨fun _ => .ok (Json.obj [("isValid", Json.bool true)]), fun _ => .error ()⟩
      ⟨"1000", none, false⟩
      ⟨[("x-payment", RVal.s (HVal.js (Json.obj
          [("paymentPayload", Json.obj [("k", Json.num 1)]),
           ("paymentRequirements", Json.obj [])])))], none, none⟩).2.2
    (Json.obj [("paymentPayload", Json.obj [("k", Json.num 1)]),
       ("paymentRequirements", Json.obj [])]) rfl rfl).1

end Kova402
